import Mathlib

/-!
Verification of the SAFE-SURFERS behavioral threat-detection core.

The development shallowly embeds three components of the repository:
* the multi-dimensional contextual risk scorer (src/anomaly-scoring.ts),
* the simplified legacy scorer (src/src/lib/log-storage.ts, getRiskLevel),
* the traffic window aggregator and affiliate-tag check
  (src/src/background/network-monitor.ts),
* the syntax-tree script analyzer (src/analysis/script-analyzer).

JavaScript numbers are modelled as rationals; every arithmetic operation the
embedded code performs is exact on the values involved.  Optional TypeScript
fields are modelled as `Option`, with `none` for `undefined`.
-/

namespace SafeSurfers

/-- Input metrics snapshot, from the `AnomalyMetrics` interface of
src/anomaly-scoring.ts.  `requestCount`, `domainRepScore`, `dataExfilSize` and
`obfuscationDetected` are required fields of the interface; all others are
optional (`?`) and are modelled as `Option`. -/
structure AnomalyMetrics where
  requestCount : ℚ
  domainRepScore : ℚ
  dataExfilSize : ℚ
  uploadFrequency : Option ℚ := none
  obfuscationDetected : Bool
  dangerousFunctionCount : Option ℚ := none
  cookieAccessDetected : Option Bool := none
  isFirstVisit : Option Bool := none
  userInteractionOccurred : Option Bool := none
  timeOfDay : Option ℚ := none
  domainAge : Option ℚ := none
deriving DecidableEq

/-- JavaScript truthiness of an optional boolean field: truthy iff the field is
present and `true` (`undefined` is falsy). -/
def optTrue (b : Option Bool) : Bool := b.getD false

/-- JavaScript truthiness of `m.uploadFrequency && m.uploadFrequency > q`:
an absent (or zero) value is falsy, hence the comparison only fires on a
present value exceeding `q`. -/
def uploadFreqGT (m : AnomalyMetrics) (q : ℚ) : Bool :=
  match m.uploadFrequency with
  | some f => decide (f > q)
  | none => false

/-- Truthiness of `m.dangerousFunctionCount && m.dangerousFunctionCount > q`. -/
def dangerFnGT (m : AnomalyMetrics) (q : ℚ) : Bool :=
  match m.dangerousFunctionCount with
  | some c => decide (c > q)
  | none => false

/-- Request-frequency tier of `calculateBehavioralScore` (lines 40-42). -/
def reqCountPts (m : AnomalyMetrics) : ℚ :=
  if m.requestCount > 50 then 30
  else if m.requestCount > 20 then 20
  else if m.requestCount > 10 then 10
  else 0

/-- Exfiltration-size tier of `calculateBehavioralScore` (lines 45-48),
computed on `dataExfilSize / (1024 * 1024)` megabytes. -/
def exfilPts (m : AnomalyMetrics) : ℚ :=
  let exfilMB := m.dataExfilSize / (1024 * 1024)
  if exfilMB > 10 then 25
  else if exfilMB > 5 then 18
  else if exfilMB > 1 then 10
  else 0

/-- Upload-frequency tier of `calculateBehavioralScore` (lines 51-55). -/
def uploadFreqPts (m : AnomalyMetrics) : ℚ :=
  if uploadFreqGT m 10 then 20
  else if uploadFreqGT m 5 then 12
  else 0

/-- Domain-reputation term of `calculateBehavioralScore` (line 58):
`(10 - domainRepScore) * 2.5`, with no clamping of its own. -/
def domainRepPts (m : AnomalyMetrics) : ℚ := (10 - m.domainRepScore) * (5 / 2)

/-- `calculateBehavioralScore` of src/anomaly-scoring.ts: sum of the four
terms, capped above at 100 by `Math.min` (line 60). -/
def calculateBehavioralScore (m : AnomalyMetrics) : ℚ :=
  min (reqCountPts m + exfilPts m + uploadFreqPts m + domainRepPts m) 100

/-- First-visit term of `calculateTemporalScore` (lines 70-73). -/
def firstVisitPts (m : AnomalyMetrics) : ℚ :=
  if optTrue m.isFirstVisit then
    (if m.requestCount > 20 then 25 else 0) +
    (if m.dataExfilSize > 1024 * 1024 then 20 else 0)
  else 0

/-- User-interaction term of `calculateTemporalScore` (lines 76-80).  The code
tests `!metrics.userInteractionOccurred`, which is true both for an explicit
`false` and for an absent field. -/
def interactionPts (m : AnomalyMetrics) : ℚ :=
  if optTrue m.userInteractionOccurred then 0
  else if m.requestCount > 5 then 30
  else if m.requestCount > 0 then 15
  else 0

/-- Time-of-day term of `calculateTemporalScore` (lines 83-88); only a present
field in the 2-5 range scores. -/
def timeOfDayPts (m : AnomalyMetrics) : ℚ :=
  match m.timeOfDay with
  | some t => if 2 ≤ t ∧ t ≤ 5 then 20 else 0
  | none => 0

/-- Domain-age term of `calculateTemporalScore` (lines 91-95). -/
def domainAgePts (m : AnomalyMetrics) : ℚ :=
  match m.domainAge with
  | some a => if a = 0 then 30 else if a < 7 then 20 else if a < 30 then 10 else 0
  | none => 0

/-- `calculateTemporalScore` of src/anomaly-scoring.ts. -/
def calculateTemporalScore (m : AnomalyMetrics) : ℚ :=
  min (firstVisitPts m + interactionPts m + timeOfDayPts m + domainAgePts m) 100

/-- Obfuscation term of `calculateStructuralScore` (lines 107-109). -/
def obfuscationPts (m : AnomalyMetrics) : ℚ :=
  if m.obfuscationDetected then 40 else 0

/-- Dangerous-function tier of `calculateStructuralScore` (lines 112-116);
the code checks `!== undefined` explicitly. -/
def dangerousFnPts (m : AnomalyMetrics) : ℚ :=
  match m.dangerousFunctionCount with
  | some c => if c > 10 then 30 else if c > 5 then 20 else if c > 0 then 10 else 0
  | none => 0

/-- Cookie-access term of `calculateStructuralScore` (lines 119-121). -/
def cookiePts (m : AnomalyMetrics) : ℚ :=
  if optTrue m.cookieAccessDetected then 30 else 0

/-- `calculateStructuralScore` of src/anomaly-scoring.ts. -/
def calculateStructuralScore (m : AnomalyMetrics) : ℚ :=
  min (obfuscationPts m + dangerousFnPts m + cookiePts m) 100

/-- `identifyThreatVectors` of src/anomaly-scoring.ts (lines 129-157): tags are
pushed in source order; the list below mirrors each `if`/`push` pair. -/
def identifyThreatVectors (m : AnomalyMetrics) : List String :=
  (if decide (m.dataExfilSize > 5 * 1024 * 1024) then ["DATA_EXFILTRATION"] else []) ++
  (if m.obfuscationDetected && dangerFnGT m 5 then ["OBFUSCATED_MALWARE"] else []) ++
  (if optTrue m.cookieAccessDetected && decide (m.dataExfilSize > 0) then ["SESSION_HIJACKING"] else []) ++
  (if !optTrue m.userInteractionOccurred && decide (m.requestCount > 10) then ["BACKGROUND_BEACON"] else []) ++
  (if optTrue m.isFirstVisit && (decide (m.requestCount > 20) || decide (m.dataExfilSize > 1024 * 1024)) then ["ZERO_DAY_ATTACK"] else []) ++
  (if uploadFreqGT m 15 then ["RAPID_EXFIL"] else [])

/-- JavaScript `Math.round` on our rational embedding: round half toward
positive infinity. -/
def jsRound (q : ℚ) : ℤ := ⌊q + 1 / 2⌋

/-- The `checks` array of `calculateConfidence` (lines 166-178), reduced to the
data the loop consumes: whether the value is present and its weight.  The four
required interface fields (`requestCount`, `domainRepScore`, `dataExfilSize`,
`obfuscationDetected`) are always present. -/
def confidenceChecks (m : AnomalyMetrics) : List (Bool × ℚ) :=
  [ (true, 1),
    (true, 1),
    (true, 1),
    (m.uploadFrequency.isSome, 8 / 10),
    (true, 1),
    (m.dangerousFunctionCount.isSome, 8 / 10),
    (m.cookieAccessDetected.isSome, 8 / 10),
    (m.isFirstVisit.isSome, 6 / 10),
    (m.userInteractionOccurred.isSome, 6 / 10),
    (m.timeOfDay.isSome, 4 / 10),
    (m.domainAge.isSome, 7 / 10) ]

/-- `calculateConfidence` of src/anomaly-scoring.ts (lines 162-188). -/
def calculateConfidence (m : AnomalyMetrics) : ℤ :=
  let availablePoints := (confidenceChecks m).foldl (fun acc c => acc + c.2) 0
  let dataPoints := (confidenceChecks m).foldl (fun acc c => if c.1 then acc + c.2 else acc) 0
  jsRound (dataPoints / availablePoints * 100)

/-- Output of `analyzeContext`, from the `ThreatContext` interface. -/
structure ThreatContext where
  behavioralScore : ℚ
  temporalScore : ℚ
  structuralScore : ℚ
  combinedScore : ℚ
  confidence : ℤ
  threatVector : List String
deriving DecidableEq

/-- Cross-dimensional multiplier 1 (lines 227-229): obfuscation and more than
1 MiB exfiltrated. -/
def mult1Cond (m : AnomalyMetrics) : Bool :=
  m.obfuscationDetected && decide (m.dataExfilSize > 1024 * 1024)

/-- Cross-dimensional multiplier 2 (lines 232-234): first visit, no user
interaction (absent counts), request count above 10. -/
def mult2Cond (m : AnomalyMetrics) : Bool :=
  optTrue m.isFirstVisit && !optTrue m.userInteractionOccurred && decide (m.requestCount > 10)

/-- Cross-dimensional multiplier 3 (lines 237-239): cookie access and upload
frequency above 10. -/
def mult3Cond (m : AnomalyMetrics) : Bool :=
  optTrue m.cookieAccessDetected && uploadFreqGT m 10

/-- Cross-dimensional multiplier 4 (lines 242-244): reputation below 3,
obfuscation, any exfiltration. -/
def mult4Cond (m : AnomalyMetrics) : Bool :=
  decide (m.domainRepScore < 3) && m.obfuscationDetected && decide (m.dataExfilSize > 0)

/-- `analyzeContext` of src/anomaly-scoring.ts (lines 206-263): weighted
combination 0.40/0.30/0.30, the four compounding multipliers in order, then
`Math.min(_, 100)`. -/
def analyzeContext (m : AnomalyMetrics) : ThreatContext :=
  let b := calculateBehavioralScore m
  let t := calculateTemporalScore m
  let s := calculateStructuralScore m
  let c0 := b * (40 / 100) + t * (30 / 100) + s * (30 / 100)
  let c1 := if mult1Cond m then c0 * (13 / 10) else c0
  let c2 := if mult2Cond m then c1 * (125 / 100) else c1
  let c3 := if mult3Cond m then c2 * (14 / 10) else c2
  let c4 := if mult4Cond m then c3 * (135 / 100) else c3
  { behavioralScore := b
    temporalScore := t
    structuralScore := s
    combinedScore := min c4 100
    confidence := calculateConfidence m
    threatVector := identifyThreatVectors m }

/-- `getRiskLevel` of src/anomaly-scoring.ts (lines 193-201), the canonical
four-tier model. -/
def getRiskLevel (m : AnomalyMetrics) : String :=
  let context := analyzeContext m
  if context.combinedScore ≥ 75 then "CRITICAL"
  else if context.combinedScore ≥ 50 then "HIGH"
  else if context.combinedScore ≥ 25 then "MEDIUM"
  else "LOW"

/-- Input of the simplified legacy scorer, from the `AnomalyMetrics` interface
of src/src/lib/log-storage.ts (lines 21-26).  The scorer-wired network monitor
additionally passes a `dataExfilSize` field, which the formula never reads; it
is carried here so that this can be stated. -/
structure SimpleMetrics where
  requestCount : ℚ
  domainRepScore : ℚ
  obfuscationDetected : Bool
  dataExfilSize : ℚ := 0
deriving DecidableEq

/-- Base score of the simplified scorer (line 38):
`requestCount * 2 + domainRepScore * 10`. -/
def simpleBaseScore (m : SimpleMetrics) : ℚ :=
  m.requestCount * 2 + m.domainRepScore * 10

/-- Final score of the simplified scorer (lines 41-42): the base score doubled
when obfuscation is detected. -/
def simpleFinalScore (m : SimpleMetrics) : ℚ :=
  simpleBaseScore m * (if m.obfuscationDetected then 2 else 1)

/-- `getRiskLevel` of src/src/lib/log-storage.ts (lines 34-53), the simplified
three-tier model with thresholds 100 and 50. -/
def getRiskLevelSimple (m : SimpleMetrics) : String :=
  if simpleFinalScore m > 100 then "CRITICAL"
  else if simpleFinalScore m > 50 then "HIGH"
  else "LOW"

/-! ### Traffic window aggregator (src/src/background/network-monitor.ts)

The insertion-ordered `hostUploadBytes` map is modelled as an association
list; the global mutable state is passed explicitly, and emitted log records
are returned instead of written to the sink. -/

/-- The `hostUploadBytes` map: insertion-ordered host/byte-count pairs. -/
abbrev Window := List (String × ℕ)

/-- `hostUploadBytes.get(host)`. -/
def mapGet (w : Window) (k : String) : Option ℕ :=
  (w.find? fun p => p.1 == k).map Prod.snd

/-- `hostUploadBytes.set(host, v)`: update in place if present, else append. -/
def mapSet : Window → String → ℕ → Window
  | [], k, v => [(k, v)]
  | (k2, v2) :: rest, k, v =>
    if k2 == k then (k2, v) :: rest else (k2, v2) :: mapSet rest k v

/-- Byte accounting of the `onBeforeSendHeaders` listener (lines 73-76 and
207-210): only a positive request-body size is added to the running total. -/
def observeBytes (w : Window) (destinationHost : String) (uploadedBytes : ℕ) : Window :=
  if uploadedBytes > 0 then
    mapSet w destinationHost ((mapGet w destinationHost).getD 0 + uploadedBytes)
  else w

/-- One `network_statistic_upload` record as saved by
`logAndResetUploadBytes`. -/
structure StatRecord where
  type_ : String
  severity : String
  host : String
  bytes_uploaded : ℕ
deriving DecidableEq

/-- The record emitted for one host by the threshold variant of
`logAndResetUploadBytes` (lines 28-41): 5 MiB threshold for `warning`. -/
def statRecord (host : String) (bytes : ℕ) : StatRecord :=
  { type_ := "network_statistic_upload"
    severity := if bytes > 5 * 1024 * 1024 then "warning" else "info"
    host := host
    bytes_uploaded := bytes }

/-- `logAndResetUploadBytes` (threshold variant, lines 24-47): on an empty map
do nothing; otherwise emit one record per entry and replace the map with an
empty one.  Returns the emitted records and the new window. -/
def logAndResetUploadBytes (w : Window) : List StatRecord × Window :=
  if w.isEmpty then ([], w)
  else (w.map fun p => statRecord p.1 p.2, [])

/-- `logAndResetUploadBytes` (scorer-wired variant, lines 154-183): the
severity is the simplified `getRiskLevel` applied to placeholder metrics with
the accumulated bytes as `dataExfilSize`. -/
def logAndResetUploadBytesScored (w : Window) : List StatRecord × Window :=
  if w.isEmpty then ([], w)
  else
    (w.map fun p =>
      { type_ := "network_statistic_upload"
        severity := getRiskLevelSimple
          { requestCount := 0
            domainRepScore := 5
            obfuscationDetected := false
            dataExfilSize := (p.2 : ℚ) }
        host := p.1
        bytes_uploaded := p.2 }, [])

/-! ### Affiliate-tag rewrite check (network-monitor.ts, lines 79-95)

The four patterns `/(\?|&)name=([^&]+)/i` are embedded as a character-level
matcher: a leftmost occurrence of a query mark followed by the (lowercase)
parameter name, `=`, and a maximal nonempty run of characters other than `&`;
the capture is that run. -/

/-- Consume `pat` (already lowercase) from the front of `cs`
case-insensitively, returning the remainder on success. -/
def dropCI : List Char → List Char → Option (List Char)
  | [], cs => some cs
  | _ :: _, [] => none
  | p :: ps, c :: cs => if c.toLower = p then dropCI ps cs else none

/-- Maximal prefix of characters other than `&`, the greedy `[^&]+` capture. -/
def takeCapture : List Char → List Char
  | [] => []
  | c :: cs => if c = '&' then [] else c :: takeCapture cs

/-- Try to match `name=([^&]+)` directly after a `?` or `&`. -/
def matchAfterMark (name : List Char) (cs : List Char) : Option (List Char) :=
  match dropCI name cs with
  | none => none
  | some rest =>
    match rest with
    | '=' :: rest2 =>
      let cap := takeCapture rest2
      if cap.isEmpty then none else some cap
    | _ => none

/-- Scan left to right for the leftmost match of
`(\?|&)name=([^&]+)`, returning the capture group. -/
def matchParamAux (name : List Char) : List Char → Option (List Char)
  | [] => none
  | c :: cs =>
    match (if c = '?' || c = '&' then matchAfterMark name cs else none) with
    | some cap => some cap
    | none => matchParamAux name cs

/-- `url.match(/(\?|&)name=([^&]+)/i)` reduced to its second capture group. -/
def matchParam (name url : String) : Option String :=
  (matchParamAux name.data url.data).map List.asString

/-- The parameter names of `AFFILIATE_PATTERNS`, in source order. -/
def AFFILIATE_NAMES : List String := ["affiliate_id", "tag", "partner_ref", "ref"]

/-- One `network_anomaly` record as saved inside the pattern loop. -/
structure NetFinding where
  type_ : String
  severity : String
  url : String
  rewritten_value : String
deriving DecidableEq

/-- The record saved on a pattern match (lines 83-92). -/
def netAnomaly (url v : String) : NetFinding :=
  { type_ := "network_anomaly", severity := "high", url := url, rewritten_value := v }

/-- The `for (const pattern of AFFILIATE_PATTERNS)` loop with its `break`:
the first matching pattern emits a single record and ends the loop. -/
def affiliateLoop (url : String) : List String → List NetFinding
  | [] => []
  | n :: rest =>
    match matchParam n url with
    | some v => [netAnomaly url v]
    | none => affiliateLoop url rest

/-- Records emitted by the per-request affiliate check of `observe`; this runs
immediately in the listener, independent of the byte window and of `tick`. -/
def affiliateFindings (url : String) : List NetFinding :=
  affiliateLoop url AFFILIATE_NAMES

/-! ### Syntax-tree script analyzer (src/analysis/script-analyzer)

The esprima syntax tree is embedded as a closed tagged union of the node
shapes the rules inspect, with a default constructor for every other shape
(whose children are still traversed).  Parsing itself is performed by the
external esprima library, so the analyzer is modelled as a function of the
parse outcome; the `try`/`catch` around `esprima.parseScript` becomes a case
split on that outcome. -/

/-- A syntax-tree node.  `line` is `node.loc.start.line`. -/
inductive JSNode where
  | callExpr (line : ℕ) (callee : JSNode) (args : List JSNode)
  | identifier (line : ℕ) (name : String)
  | memberExpr (line : ℕ) (obj : JSNode) (prop : JSNode)
  | assignExpr (line : ℕ) (left : JSNode) (right : JSNode)
  | other (line : ℕ) (children : List JSNode)

/-- `DANGEROUS_CALLS` of script-analyzer (line 11). -/
def DANGEROUS_CALLS : List String :=
  ["eval", "Function", "setTimeout", "setInterval", "atob", "btoa"]

/-- `STRING_MANIPULATORS` of script-analyzer (line 12). -/
def STRING_MANIPULATORS : List String :=
  ["fromCharCode", "charCodeAt", "substr", "substring", "replace"]

/-- One record as written by `saveLog`; `line_number` is absent on parse
failures. -/
structure LogRecord where
  type_ : String
  severity : String
  script_id : String
  line_number : Option ℕ
  details : String
deriving DecidableEq

/-- A single-quote character, used in the detail strings of the analyzer. -/
def sq : String := String.singleton (Char.ofNat 39)

/-- Detail text of a dangerous-call finding:
the source writes the function name between single quotes. -/
def dangerousCallDetail (nm : String) : String :=
  "High-risk structural anomaly found: Function call to " ++ sq ++ nm ++ sq

/-- Detail text of an obfuscation-method finding. -/
def obfuscationDetail (p : String) : String :=
  "High-risk structural anomaly found: Obfuscation method detected: " ++ p

/-- Detail text of the cookie-write finding. -/
def cookieDetail : String :=
  "High-risk structural anomaly found: Direct assignment to " ++ sq ++ "document.cookie" ++ sq

/-- `logAnomaly` of script-analyzer (lines 21-30). -/
def logAnomaly (scriptId : String) (detail : String) (line : ℕ) : LogRecord :=
  { type_ := "script_anomaly"
    severity := "high"
    script_id := scriptId
    line_number := some line
    details := detail }

/-- The three rule checks applied to a single node (lines 53-80).  Each rule
fires on a distinct node kind, so at most one record is produced per node. -/
def nodeRuleHits (sid : String) : JSNode → List LogRecord
  | .callExpr line callee _ =>
    match callee with
    | .identifier _ nm =>
      if nm ∈ DANGEROUS_CALLS then [logAnomaly sid (dangerousCallDetail nm) line] else []
    | _ => []
  | .memberExpr line _ prop =>
    match prop with
    | .identifier _ p =>
      if p ∈ STRING_MANIPULATORS then [logAnomaly sid (obfuscationDetail p) line] else []
    | _ => []
  | .assignExpr line left _ =>
    match left with
    | .memberExpr _ _ (.identifier _ pname) =>
      if pname = "cookie" then [logAnomaly sid cookieDetail line] else []
    | _ => []
  | _ => []

mutual

/-- The recursive `traverse` (lines 47-93): apply the rules to the node, then
recurse into every child; the boolean is the `isSuspicious` flag, set exactly
when a rule fires. -/
def scanNode (sid : String) : JSNode → Bool × List LogRecord
  | .callExpr line callee args =>
    let own := nodeRuleHits sid (.callExpr line callee args)
    let rc := scanNode sid callee
    let ra := scanList sid args
    (!own.isEmpty || rc.1 || ra.1, own ++ rc.2 ++ ra.2)
  | .identifier _ _ => (false, [])
  | .memberExpr line obj prop =>
    let own := nodeRuleHits sid (.memberExpr line obj prop)
    let ro := scanNode sid obj
    let rp := scanNode sid prop
    (!own.isEmpty || ro.1 || rp.1, own ++ ro.2 ++ rp.2)
  | .assignExpr line left right =>
    let own := nodeRuleHits sid (.assignExpr line left right)
    let rl := scanNode sid left
    let rr := scanNode sid right
    (!own.isEmpty || rl.1 || rr.1, own ++ rl.2 ++ rr.2)
  | .other _ children => scanList sid children

/-- Element-wise traversal of an array-valued child. -/
def scanList (sid : String) : List JSNode → Bool × List LogRecord
  | [] => (false, [])
  | n :: rest =>
    let r1 := scanNode sid n
    let r2 := scanList sid rest
    (r1.1 || r2.1, r1.2 ++ r2.2)

end

/-- Outcome of `esprima.parseScript` on the source text.  The parser is the
external esprima library, so it appears here as an input: either a syntax
tree, or a failure carrying `error.message`. -/
inductive ParseResult where
  | ok (ast : JSNode)
  | err (msg : String)

/-- The `script_analysis_error` record of the `catch` branch (lines 100-105). -/
def parseErrorRecord (sid msg : String) : LogRecord :=
  { type_ := "script_analysis_error"
    severity := "medium"
    script_id := sid
    line_number := none
    details := "Script parsing failed: " ++ msg }

/-- `scanScriptForAnomalies` (lines 38-108): traverse on a successful parse;
on a parse failure emit a single medium-severity error record and return
`false`.  Returns the verdict and the emitted records. -/
def scanScriptForAnomalies (parsed : ParseResult) (scriptId : String) : Bool × List LogRecord :=
  match parsed with
  | .ok ast => scanNode scriptId ast
  | .err msg => (false, [parseErrorRecord scriptId msg])

/-- The syntax tree contains (at any depth) a `CallExpression` at line `line`
whose callee is the bare identifier `nm`. -/
inductive ContainsCall (nm : String) (line : ℕ) : JSNode → Prop where
  | here (cl : ℕ) (args : List JSNode) :
      ContainsCall nm line (.callExpr line (.identifier cl nm) args)
  | inCallee (l : ℕ) (c : JSNode) (args : List JSNode) :
      ContainsCall nm line c → ContainsCall nm line (.callExpr l c args)
  | inArg (l : ℕ) (c a : JSNode) (args : List JSNode) :
      a ∈ args → ContainsCall nm line a → ContainsCall nm line (.callExpr l c args)
  | inObj (l : ℕ) (o p : JSNode) :
      ContainsCall nm line o → ContainsCall nm line (.memberExpr l o p)
  | inProp (l : ℕ) (o p : JSNode) :
      ContainsCall nm line p → ContainsCall nm line (.memberExpr l o p)
  | inLeft (l : ℕ) (a b : JSNode) :
      ContainsCall nm line a → ContainsCall nm line (.assignExpr l a b)
  | inRight (l : ℕ) (a b : JSNode) :
      ContainsCall nm line b → ContainsCall nm line (.assignExpr l a b)
  | inChild (l : ℕ) (c : JSNode) (cs : List JSNode) :
      c ∈ cs → ContainsCall nm line c → ContainsCall nm line (.other l cs)

/-! ### Spec-side definition for the confidence refinement claim -/

/-- Modelled from the spec (§4.3 Confidence): the weighted fraction of metric
fields present — weights uploadFrequency 0.8, dangerousFunctionCount 0.8,
cookieAccessDetected 0.8, isFirstVisit 0.6, userInteractionOccurred 0.6,
timeOfDay 0.4, domainAge 0.7, and 1.0 for each of the four always-present
required interface fields — expressed, rounded, as a percentage of the total
possible weight. -/
def confidenceSpec (m : AnomalyMetrics) : ℤ :=
  let totalWeight : ℚ := 4 * 1 + (8 / 10 + 8 / 10 + 8 / 10 + 6 / 10 + 6 / 10 + 4 / 10 + 7 / 10)
  let presentWeight : ℚ := 4 * 1 +
    ((if m.uploadFrequency.isSome then 8 / 10 else 0) +
     (if m.dangerousFunctionCount.isSome then 8 / 10 else 0) +
     (if m.cookieAccessDetected.isSome then 8 / 10 else 0) +
     (if m.isFirstVisit.isSome then 6 / 10 else 0) +
     (if m.userInteractionOccurred.isSome then 6 / 10 else 0) +
     (if m.timeOfDay.isSome then 4 / 10 else 0) +
     (if m.domainAge.isSome then 7 / 10 else 0))
  jsRound (presentWeight / totalWeight * 100)

/-! ### Concrete inputs used by counterexamples and witnesses -/

/-- A snapshot with every optional field absent and eleven requests: the
`userInteractionOccurred` field is `undefined`. -/
def absentInteractionMetrics : AnomalyMetrics :=
  { requestCount := 11, domainRepScore := 10, dataExfilSize := 0, obfuscationDetected := false }

/-- A snapshot whose `domainRepScore` (50) is far outside the nominal 0-10
range, with every score contribution otherwise zero. -/
def badRepMetrics : AnomalyMetrics :=
  { requestCount := 0, domainRepScore := 50, dataExfilSize := 0,
    obfuscationDetected := false, userInteractionOccurred := some true }

/-- A snapshot with an extreme request count, used to exercise the clamped
range on in-range reputation. -/
def extremeMetrics : AnomalyMetrics :=
  { requestCount := 10000, domainRepScore := 0, dataExfilSize := 10 ^ 9,
    obfuscationDetected := true }

/-! ## Helper lemmas -/

/-- Membership in an `if`-guarded list with empty alternative. -/
theorem mem_ite_nil {α : Type} (p : Prop) [Decidable p] (l : List α) (a : α) :
    a ∈ (if p then l else []) ↔ p ∧ a ∈ l := by
  split_ifs with h <;> simp [h]

/-- Membership in the threat-vector list, segment by segment. -/
theorem mem_threatVectors_iff (m : AnomalyMetrics) (s : String) :
    s ∈ identifyThreatVectors m ↔
      (m.dataExfilSize > 5 * 1024 * 1024 ∧ s = "DATA_EXFILTRATION") ∨
      ((m.obfuscationDetected = true ∧ dangerFnGT m 5 = true) ∧ s = "OBFUSCATED_MALWARE") ∨
      ((optTrue m.cookieAccessDetected = true ∧ m.dataExfilSize > 0) ∧ s = "SESSION_HIJACKING") ∨
      ((optTrue m.userInteractionOccurred = false ∧ m.requestCount > 10) ∧ s = "BACKGROUND_BEACON") ∨
      ((optTrue m.isFirstVisit = true ∧ (m.requestCount > 20 ∨ m.dataExfilSize > 1024 * 1024)) ∧ s = "ZERO_DAY_ATTACK") ∨
      (uploadFreqGT m 15 = true ∧ s = "RAPID_EXFIL") := by
  simp only [identifyThreatVectors, List.mem_append, mem_ite_nil, List.mem_singleton,
    decide_eq_true_eq, Bool.and_eq_true, Bool.or_eq_true, Bool.not_eq_true']
  simp only [or_assoc]

/-- Lifting a member node's scan outcome to the scan of a child list. -/
theorem scanList_lift (sid : String) (a : JSNode) (l : List JSNode) (ha : a ∈ l) :
    ((scanNode sid a).1 = true → (scanList sid l).1 = true) ∧
    ∀ r, r ∈ (scanNode sid a).2 → r ∈ (scanList sid l).2 := by
  induction l with
  | nil => exact absurd ha (List.not_mem_nil a)
  | cons b rest ih =>
    rcases List.mem_cons.mp ha with h | h
    · subst h
      refine ⟨fun ht => ?_, fun r hr => ?_⟩
      · simp [scanList, ht]
      · simp only [scanList, List.mem_append]
        exact Or.inl hr
    · refine ⟨fun ht => ?_, fun r hr => ?_⟩
      · simp [scanList, (ih h).1 ht]
      · simp only [scanList, List.mem_append]
        exact Or.inr ((ih h).2 r hr)

/-! ## Claim theorems -/

/-- C5: for every source text that fails to parse, `scanScriptForAnomalies`
emits exactly one record — of kind `script_analysis_error`, severity
`medium`, whose detail contains the parser's failure message — and returns
`suspicious = false` (fail-open). -/
theorem parse_failure_fail_open (msg sid : String) :
    scanScriptForAnomalies (.err msg) sid = (false, [parseErrorRecord sid msg]) ∧
    (parseErrorRecord sid msg).type_ = "script_analysis_error" ∧
    (parseErrorRecord sid msg).severity = "medium" ∧
    ∃ pre, (parseErrorRecord sid msg).details = pre ++ msg :=
  ⟨rfl, rfl, rfl, "Script parsing failed: ", rfl⟩

/-- C5 witness: the property at a concrete failure message and script id. -/
theorem parse_failure_fail_open_witness :
    scanScriptForAnomalies (.err "Unexpected token") "script_7" =
      (false, [parseErrorRecord "script_7" "Unexpected token"]) ∧
    (parseErrorRecord "script_7" "Unexpected token").type_ = "script_analysis_error" ∧
    (parseErrorRecord "script_7" "Unexpected token").severity = "medium" ∧
    ∃ pre, (parseErrorRecord "script_7" "Unexpected token").details = pre ++ "Unexpected token" :=
  parse_failure_fail_open "Unexpected token" "script_7"

/-- C6: `tick` on an empty window emits no records and leaves the window
unchanged; after `observe(hostA, 1000)` and `observe(hostA, 2000)` on a fresh
window, the next `tick` emits exactly one statistic record for hostA with
`bytes_uploaded = 3000` and leaves the window map empty. -/
theorem tick_empty_noop_and_aggregation :
    logAndResetUploadBytes [] = ([], []) ∧
    observeBytes (observeBytes [] "hostA" 1000) "hostA" 2000 = [("hostA", 3000)] ∧
    logAndResetUploadBytes (observeBytes (observeBytes [] "hostA" 1000) "hostA" 2000) =
      ([statRecord "hostA" 3000], []) ∧
    (statRecord "hostA" 3000).host = "hostA" ∧
    (statRecord "hostA" 3000).bytes_uploaded = 3000 := by
  decide

/-- C8: under the simplified legacy model, requestCount 15 and
domainRepScore 3 without obfuscation give base 60, multiplier 1, final 60,
risk HIGH; with obfuscation the final score is 120, risk CRITICAL. -/
theorem simplified_scoring_scenario :
    simpleBaseScore { requestCount := 15, domainRepScore := 3, obfuscationDetected := false } = 60 ∧
    simpleFinalScore { requestCount := 15, domainRepScore := 3, obfuscationDetected := false } = 60 ∧
    getRiskLevelSimple { requestCount := 15, domainRepScore := 3, obfuscationDetected := false } = "HIGH" ∧
    simpleFinalScore { requestCount := 15, domainRepScore := 3, obfuscationDetected := true } = 120 ∧
    getRiskLevelSimple { requestCount := 15, domainRepScore := 3, obfuscationDetected := true } = "CRITICAL" := by
  norm_num [getRiskLevelSimple, simpleFinalScore, simpleBaseScore]

/-- C10: every record emitted by the scorer-wired `tick` variant has severity
LOW, because the simplified formula ignores `dataExfilSize` and yields a final
score of exactly 50 on the placeholder metrics, which does not exceed the HIGH
threshold of 50. -/
theorem scored_tick_always_LOW (w : Window) (r : StatRecord)
    (h : r ∈ (logAndResetUploadBytesScored w).1) :
    r.severity = "LOW" ∧
    ∀ b : ℚ, simpleFinalScore
      { requestCount := 0, domainRepScore := 5, obfuscationDetected := false,
        dataExfilSize := b } = 50 := by
  constructor
  · unfold logAndResetUploadBytesScored at h
    split at h
    · simp at h
    · simp only [List.mem_map] at h
      obtain ⟨p, -, rfl⟩ := h
      show getRiskLevelSimple _ = "LOW"
      norm_num [getRiskLevelSimple, simpleFinalScore, simpleBaseScore]
  · intro b
    norm_num [simpleFinalScore, simpleBaseScore]

/-- C10 witness: the property at a concrete one-host window. -/
theorem scored_tick_always_LOW_witness :
    ({ type_ := "network_statistic_upload"
       severity := getRiskLevelSimple
         { requestCount := 0, domainRepScore := 5, obfuscationDetected := false,
           dataExfilSize := ((7 : ℕ) : ℚ) }
       host := "h"
       bytes_uploaded := 7 } : StatRecord).severity = "LOW" ∧
    ∀ b : ℚ, simpleFinalScore
      { requestCount := 0, domainRepScore := 5, obfuscationDetected := false,
        dataExfilSize := b } = 50 :=
  scored_tick_always_LOW [("h", 7)] _ (by simp [logAndResetUploadBytesScored])

/-- C2: every script whose syntax tree contains a call with a bare-identifier
callee named in the deny-list is reported suspicious, and at least one
high-severity dangerous-call record is emitted carrying that function name and
the line number of the call. -/
theorem dangerous_call_detected (sid : String) (ast : JSNode) (nm : String) (line : ℕ)
    (hmem : nm ∈ DANGEROUS_CALLS) (hc : ContainsCall nm line ast) :
    (scanScriptForAnomalies (.ok ast) sid).1 = true ∧
    ∃ r ∈ (scanScriptForAnomalies (.ok ast) sid).2,
      r.type_ = "script_anomaly" ∧ r.severity = "high" ∧
      r.line_number = some line ∧ r.details = dangerousCallDetail nm := by
  have key : ∀ n : JSNode, ContainsCall nm line n →
      (scanNode sid n).1 = true ∧
      logAnomaly sid (dangerousCallDetail nm) line ∈ (scanNode sid n).2 := by
    intro n hn
    induction hn with
    | here cl args =>
      refine ⟨?_, ?_⟩ <;> simp [scanNode, nodeRuleHits, hmem]
    | inCallee l c args hsub ih =>
      refine ⟨?_, ?_⟩
      · simp [scanNode, ih.1]
      · simp only [scanNode, List.mem_append]
        exact Or.inl (Or.inr ih.2)
    | inArg l c a args ha hsub ih =>
      refine ⟨?_, ?_⟩
      · simp [scanNode, (scanList_lift sid a args ha).1 ih.1]
      · simp only [scanNode, List.mem_append]
        exact Or.inr ((scanList_lift sid a args ha).2 _ ih.2)
    | inObj l o p hsub ih =>
      refine ⟨?_, ?_⟩
      · simp [scanNode, ih.1]
      · simp only [scanNode, List.mem_append]
        exact Or.inl (Or.inr ih.2)
    | inProp l o p hsub ih =>
      refine ⟨?_, ?_⟩
      · simp [scanNode, ih.1]
      · simp only [scanNode, List.mem_append]
        exact Or.inr ih.2
    | inLeft l a b hsub ih =>
      refine ⟨?_, ?_⟩
      · simp [scanNode, ih.1]
      · simp only [scanNode, List.mem_append]
        exact Or.inl (Or.inr ih.2)
    | inRight l a b hsub ih =>
      refine ⟨?_, ?_⟩
      · simp [scanNode, ih.1]
      · simp only [scanNode, List.mem_append]
        exact Or.inr ih.2
    | inChild l c cs hcs hsub ih =>
      refine ⟨?_, ?_⟩
      · simp [scanNode, (scanList_lift sid c cs hcs).1 ih.1]
      · simp only [scanNode]
        exact (scanList_lift sid c cs hcs).2 _ ih.2
  obtain ⟨h1, h2⟩ := key ast hc
  exact ⟨h1, logAnomaly sid (dangerousCallDetail nm) line, h2, rfl, rfl, rfl, rfl⟩

/-- C2 witness: a one-line script calling `eval` at line 3. -/
theorem dangerous_call_detected_witness :
    (scanScriptForAnomalies (.ok (.callExpr 3 (.identifier 3 "eval") [])) "s1").1 = true ∧
    ∃ r ∈ (scanScriptForAnomalies (.ok (.callExpr 3 (.identifier 3 "eval") [])) "s1").2,
      r.type_ = "script_anomaly" ∧ r.severity = "high" ∧
      r.line_number = some 3 ∧ r.details = dangerousCallDetail "eval" :=
  dangerous_call_detected "s1" _ "eval" 3 (by decide) (ContainsCall.here 3 [])

/-- C7: whenever the URL matches one of the four ordered affiliate patterns,
the per-request check emits exactly one `network_anomaly` record, of high
severity, carrying the capture of the first pattern in the ordered list that
matches — every earlier pattern matching nothing; and the URL
`https://x.example/?tag=abc123` yields `rewritten_value = "abc123"`. -/
theorem affiliate_tag_immediate_finding :
    (∀ url : String, (∃ n ∈ AFFILIATE_NAMES, (matchParam n url).isSome) →
      ∃ n v, n ∈ AFFILIATE_NAMES ∧ matchParam n url = some v ∧
        affiliateFindings url = [netAnomaly url v] ∧
        (netAnomaly url v).severity = "high" ∧
        ∀ n2 ∈ AFFILIATE_NAMES.takeWhile (fun x => x != n), matchParam n2 url = none) ∧
    affiliateFindings "https://x.example/?tag=abc123" =
      [netAnomaly "https://x.example/?tag=abc123" "abc123"] := by
  constructor
  · intro url h
    match h1 : matchParam "affiliate_id" url with
    | some v =>
      refine ⟨"affiliate_id", v, by decide, h1, ?_, rfl, ?_⟩
      · simp [affiliateFindings, AFFILIATE_NAMES, affiliateLoop, h1]
      · intro n2 hn2
        simp [AFFILIATE_NAMES, List.takeWhile] at hn2
    | none =>
    match h2 : matchParam "tag" url with
    | some v =>
      refine ⟨"tag", v, by decide, h2, ?_, rfl, ?_⟩
      · simp [affiliateFindings, AFFILIATE_NAMES, affiliateLoop, h1, h2]
      · intro n2 hn2
        simp [AFFILIATE_NAMES, List.takeWhile] at hn2
        subst hn2
        exact h1
    | none =>
    match h3 : matchParam "partner_ref" url with
    | some v =>
      refine ⟨"partner_ref", v, by decide, h3, ?_, rfl, ?_⟩
      · simp [affiliateFindings, AFFILIATE_NAMES, affiliateLoop, h1, h2, h3]
      · intro n2 hn2
        simp [AFFILIATE_NAMES, List.takeWhile] at hn2
        rcases hn2 with hn2 | hn2 <;> subst hn2 <;> assumption
    | none =>
    match h4 : matchParam "ref" url with
    | some v =>
      refine ⟨"ref", v, by decide, h4, ?_, rfl, ?_⟩
      · simp [affiliateFindings, AFFILIATE_NAMES, affiliateLoop, h1, h2, h3, h4]
      · intro n2 hn2
        simp [AFFILIATE_NAMES, List.takeWhile] at hn2
        rcases hn2 with hn2 | hn2 | hn2 <;> subst hn2 <;> assumption
    | none =>
      obtain ⟨n, hn, hsome⟩ := h
      fin_cases hn <;> simp_all
  · decide

/-- C7 witness: the universal part applied at the scenario URL. -/
theorem affiliate_tag_immediate_finding_witness :
    ∃ n v, n ∈ AFFILIATE_NAMES ∧ matchParam n "https://x.example/?tag=abc123" = some v ∧
      affiliateFindings "https://x.example/?tag=abc123" =
        [netAnomaly "https://x.example/?tag=abc123" v] ∧
      (netAnomaly "https://x.example/?tag=abc123" v).severity = "high" ∧
      ∀ n2 ∈ AFFILIATE_NAMES.takeWhile (fun x => x != n),
        matchParam n2 "https://x.example/?tag=abc123" = none :=
  affiliate_tag_immediate_finding.1 "https://x.example/?tag=abc123"
    ⟨"tag", by decide, by decide⟩

/-- C9: the behavioral score is nondecreasing in `requestCount` and
nonincreasing in `domainRepScore`, all other fields held fixed. -/
theorem behavioral_monotonicity :
    (∀ (m : AnomalyMetrics) (r1 r2 : ℚ), r1 ≤ r2 →
      calculateBehavioralScore { m with requestCount := r1 } ≤
        calculateBehavioralScore { m with requestCount := r2 }) ∧
    (∀ (m : AnomalyMetrics) (d1 d2 : ℚ), d1 ≤ d2 →
      calculateBehavioralScore { m with domainRepScore := d2 } ≤
        calculateBehavioralScore { m with domainRepScore := d1 }) := by
  constructor
  · intro m r1 r2 h
    have hA : reqCountPts { m with requestCount := r1 } ≤
        reqCountPts { m with requestCount := r2 } := by
      simp only [reqCountPts]
      split_ifs <;> linarith
    have hB : exfilPts { m with requestCount := r1 } =
        exfilPts { m with requestCount := r2 } := rfl
    have hC : uploadFreqPts { m with requestCount := r1 } =
        uploadFreqPts { m with requestCount := r2 } := rfl
    have hD : domainRepPts { m with requestCount := r1 } =
        domainRepPts { m with requestCount := r2 } := rfl
    simp only [calculateBehavioralScore, hB, hC, hD]
    exact min_le_min (by linarith) le_rfl
  · intro m d1 d2 h
    have hD : domainRepPts { m with domainRepScore := d2 } ≤
        domainRepPts { m with domainRepScore := d1 } := by
      simp only [domainRepPts]
      nlinarith
    have hA : reqCountPts { m with domainRepScore := d2 } =
        reqCountPts { m with domainRepScore := d1 } := rfl
    have hB : exfilPts { m with domainRepScore := d2 } =
        exfilPts { m with domainRepScore := d1 } := rfl
    have hC : uploadFreqPts { m with domainRepScore := d2 } =
        uploadFreqPts { m with domainRepScore := d1 } := rfl
    simp only [calculateBehavioralScore, hA, hB, hC]
    exact min_le_min (by linarith) le_rfl

/-- C9 witness: the two inequalities at concrete inputs. -/
theorem behavioral_monotonicity_witness :
    calculateBehavioralScore { absentInteractionMetrics with requestCount := 11 } ≤
      calculateBehavioralScore { absentInteractionMetrics with requestCount := 55 } ∧
    calculateBehavioralScore { absentInteractionMetrics with domainRepScore := 9 } ≤
      calculateBehavioralScore { absentInteractionMetrics with domainRepScore := 2 } :=
  ⟨behavioral_monotonicity.1 absentInteractionMetrics 11 55 (by norm_num),
   behavioral_monotonicity.2 absentInteractionMetrics 2 9 (by norm_num)⟩

set_option maxHeartbeats 1000000 in
/-- C4: the confidence field equals the weighted fraction of present metric
fields, with the spec's per-field weights, rounded as a percentage of the
total possible weight. -/
theorem confidence_matches_spec (m : AnomalyMetrics) :
    calculateConfidence m = confidenceSpec m := by
  have hpush : ∀ (acc w : ℚ) (c : Bool),
      (if c = true then acc + w else acc) = acc + (if c = true then w else 0) := by
    intro acc w c
    split_ifs <;> simp
  simp only [calculateConfidence, confidenceChecks, confidenceSpec,
    List.foldl_cons, List.foldl_nil, hpush, if_true]
  congr 1
  ring_nf

/-- Every temporal sub-term is nonnegative. -/
theorem temporalScore_nonneg (m : AnomalyMetrics) : 0 ≤ calculateTemporalScore m := by
  have h1 : 0 ≤ firstVisitPts m := by
    simp only [firstVisitPts]
    split_ifs <;> norm_num
  have h2 : 0 ≤ interactionPts m := by
    simp only [interactionPts]
    split_ifs <;> norm_num
  have h3 : 0 ≤ timeOfDayPts m := by
    rcases h : m.timeOfDay with - | t
    · simp [timeOfDayPts, h]
    · simp only [timeOfDayPts, h]
      split_ifs <;> norm_num
  have h4 : 0 ≤ domainAgePts m := by
    rcases h : m.domainAge with - | a
    · simp [domainAgePts, h]
    · simp only [domainAgePts, h]
      split_ifs <;> norm_num
  exact le_min (by linarith) (by norm_num)

/-- Every structural sub-term is nonnegative. -/
theorem structuralScore_nonneg (m : AnomalyMetrics) : 0 ≤ calculateStructuralScore m := by
  have h1 : 0 ≤ obfuscationPts m := by
    simp only [obfuscationPts]
    split_ifs <;> norm_num
  have h2 : 0 ≤ dangerousFnPts m := by
    rcases h : m.dangerousFunctionCount with - | c
    · simp [dangerousFnPts, h]
    · simp only [dangerousFnPts, h]
      split_ifs <;> norm_num
  have h3 : 0 ≤ cookiePts m := by
    simp only [cookiePts]
    split_ifs <;> norm_num
  exact le_min (by linarith) (by norm_num)

/-- With an in-range reputation, every behavioral sub-term is nonnegative. -/
theorem behavioralScore_nonneg (m : AnomalyMetrics) (h : m.domainRepScore ≤ 10) :
    0 ≤ calculateBehavioralScore m := by
  have h1 : 0 ≤ reqCountPts m := by
    simp only [reqCountPts]
    split_ifs <;> norm_num
  have h2 : 0 ≤ exfilPts m := by
    simp only [exfilPts]
    split_ifs <;> norm_num
  have h3 : 0 ≤ uploadFreqPts m := by
    simp only [uploadFreqPts]
    split_ifs <;> norm_num
  have h4 : 0 ≤ domainRepPts m := by
    simp only [domainRepPts]
    nlinarith
  exact le_min (by linarith) (by norm_num)

/-- A nonnegative quantity stays nonnegative under a conditional scaling by a
nonnegative factor. -/
theorem ifscale_nonneg (c : Prop) [Decidable c] (x k : ℚ) (hx : 0 ≤ x) (hk : 0 ≤ k) :
    0 ≤ if c then x * k else x := by
  split_ifs
  · exact mul_nonneg hx hk
  · exact hx

/-- C3 counterexample: with `domainRepScore = 50` (far outside the nominal
0-10 range) and every other contribution zero, the reputation term
`(10 - 50) * 2.5` drives the combined score to `-40`, below the claimed
interval [0, 100]. -/
theorem combined_score_below_zero :
    (analyzeContext badRepMetrics).combinedScore = -40 ∧
    (analyzeContext badRepMetrics).combinedScore < 0 := by
  constructor <;>
    norm_num [badRepMetrics, analyzeContext, calculateBehavioralScore, calculateTemporalScore,
      calculateStructuralScore, reqCountPts, exfilPts, uploadFreqPts, domainRepPts,
      firstVisitPts, interactionPts, timeOfDayPts, domainAgePts, obfuscationPts,
      dangerousFnPts, cookiePts, optTrue, uploadFreqGT, dangerFnGT,
      mult1Cond, mult2Cond, mult3Cond, mult4Cond]

/-- C3 amended: the combined score never exceeds 100 for any input, and it
lies in [0, 100] whenever `domainRepScore` is at most 10; without a lower
clamp, a reputation above 10 can drive it below 0. -/
theorem combined_score_range (m : AnomalyMetrics) :
    (analyzeContext m).combinedScore ≤ 100 ∧
    (m.domainRepScore ≤ 10 → 0 ≤ (analyzeContext m).combinedScore) := by
  constructor
  · exact min_le_right _ _
  · intro h
    have hb := behavioralScore_nonneg m h
    have ht := temporalScore_nonneg m
    have hs := structuralScore_nonneg m
    have h0 : 0 ≤ calculateBehavioralScore m * (40 / 100) +
        calculateTemporalScore m * (30 / 100) + calculateStructuralScore m * (30 / 100) := by
      linarith
    simp only [analyzeContext]
    refine le_min ?_ (by norm_num)
    exact ifscale_nonneg _ _ _
      (ifscale_nonneg _ _ _ (ifscale_nonneg _ _ _ (ifscale_nonneg _ _ _ h0 (by norm_num))
        (by norm_num)) (by norm_num)) (by norm_num)

/-- C3 witness: the range at extreme inputs with requestCount 10000. -/
theorem combined_score_range_witness :
    (analyzeContext extremeMetrics).combinedScore ≤ 100 ∧
    0 ≤ (analyzeContext extremeMetrics).combinedScore :=
  ⟨(combined_score_range extremeMetrics).1,
   (combined_score_range extremeMetrics).2 (by norm_num [extremeMetrics])⟩

/-- C1 counterexample: with `userInteractionOccurred` absent and eleven
requests, the temporal score does gain the no-interaction bonus (+30),
BACKGROUND_BEACON is tagged, and the no-interaction conjunct of the
first-visit multiplier is satisfied — contradicting the claim that absence
contributes nothing. -/
theorem absent_interaction_scores :
    absentInteractionMetrics.userInteractionOccurred = none ∧
    interactionPts absentInteractionMetrics = 30 ∧
    calculateTemporalScore absentInteractionMetrics = 30 ∧
    identifyThreatVectors absentInteractionMetrics = ["BACKGROUND_BEACON"] ∧
    mult2Cond { absentInteractionMetrics with isFirstVisit := some true } = true := by
  refine ⟨rfl, ?_, ?_, ?_, ?_⟩
  · norm_num [absentInteractionMetrics, interactionPts, optTrue]
  · norm_num [absentInteractionMetrics, calculateTemporalScore, firstVisitPts,
      interactionPts, timeOfDayPts, domainAgePts, optTrue]
  · norm_num [absentInteractionMetrics, identifyThreatVectors, optTrue, uploadFreqGT, dangerFnGT]
  · norm_num [absentInteractionMetrics, mult2Cond, optTrue]

/-- C1 amended: an absent optional metric is never an error, and for every
field other than `userInteractionOccurred` absence contributes nothing to the
sub-scores, the cross-dimensional multipliers, or the threat-vector tags; an
absent `userInteractionOccurred`, however, is treated exactly as "no user
interaction": the temporal no-interaction bonus applies, BACKGROUND_BEACON is
tagged precisely when `requestCount > 10`, and the no-interaction conjunct of
the first-visit ×1.25 multiplier is automatically satisfied. -/
theorem absent_optional_fields (m : AnomalyMetrics) :
    (m.uploadFrequency = none →
      uploadFreqPts m = 0 ∧ mult3Cond m = false ∧
      "RAPID_EXFIL" ∉ identifyThreatVectors m) ∧
    (m.dangerousFunctionCount = none →
      dangerousFnPts m = 0 ∧ "OBFUSCATED_MALWARE" ∉ identifyThreatVectors m) ∧
    (m.cookieAccessDetected = none →
      cookiePts m = 0 ∧ mult3Cond m = false ∧
      "SESSION_HIJACKING" ∉ identifyThreatVectors m) ∧
    (m.isFirstVisit = none →
      firstVisitPts m = 0 ∧ mult2Cond m = false ∧
      "ZERO_DAY_ATTACK" ∉ identifyThreatVectors m) ∧
    (m.timeOfDay = none → timeOfDayPts m = 0) ∧
    (m.domainAge = none → domainAgePts m = 0) ∧
    (m.userInteractionOccurred = none →
      interactionPts m =
        (if m.requestCount > 5 then 30 else if m.requestCount > 0 then 15 else 0) ∧
      ("BACKGROUND_BEACON" ∈ identifyThreatVectors m ↔ m.requestCount > 10) ∧
      mult2Cond m = (optTrue m.isFirstVisit && decide (m.requestCount > 10))) := by
  refine ⟨fun h => ⟨?_, ?_, ?_⟩, fun h => ⟨?_, ?_⟩, fun h => ⟨?_, ?_, ?_⟩,
    fun h => ⟨?_, ?_, ?_⟩, fun h => ?_, fun h => ?_, fun h => ⟨?_, ?_, ?_⟩⟩
  · simp [uploadFreqPts, uploadFreqGT, h]
  · simp [mult3Cond, uploadFreqGT, h]
  · simp [mem_threatVectors_iff, uploadFreqGT, h]
  · simp [dangerousFnPts, h]
  · simp [mem_threatVectors_iff, dangerFnGT, h]
  · simp [cookiePts, optTrue, h]
  · simp [mult3Cond, optTrue, h]
  · simp [mem_threatVectors_iff, optTrue, h]
  · simp [firstVisitPts, optTrue, h]
  · simp [mult2Cond, optTrue, h]
  · simp [mem_threatVectors_iff, optTrue, h]
  · simp [timeOfDayPts, h]
  · simp [domainAgePts, h]
  · simp [interactionPts, optTrue, h]
  · simp [mem_threatVectors_iff, optTrue, h]
  · simp [mult2Cond, optTrue, h]

/-- C1 witness: the amended behavior at the all-absent snapshot with eleven
requests. -/
theorem absent_optional_fields_witness :
    uploadFreqPts absentInteractionMetrics = 0 ∧
    dangerousFnPts absentInteractionMetrics = 0 ∧
    cookiePts absentInteractionMetrics = 0 ∧
    firstVisitPts absentInteractionMetrics = 0 ∧
    timeOfDayPts absentInteractionMetrics = 0 ∧
    domainAgePts absentInteractionMetrics = 0 ∧
    ("BACKGROUND_BEACON" ∈ identifyThreatVectors absentInteractionMetrics ↔
      absentInteractionMetrics.requestCount > 10) := by
  obtain ⟨h1, h2, h3, h4, h5, h6, h7⟩ := absent_optional_fields absentInteractionMetrics
  exact ⟨(h1 rfl).1, (h2 rfl).1, (h3 rfl).1, (h4 rfl).1, h5 rfl, h6 rfl, (h7 rfl).2.1⟩

end SafeSurfers
